import Mathlib

/-!
Verification of the routing/dispatch core of a minimalist web framework.

The repository ships an example application (`app.py`) and the framework's
test suite (`test_framework.py`); the framework core itself (the `API` class,
its route registry, dispatcher, middleware pipeline and exception hook) is
not part of the sources.  Following the specification, that core is modelled
here definition by definition; the example application's handlers are
translated from `app.py` and the test suite's handlers from
`test_framework.py`.
-/

namespace SimpleWeb

/-- Modelled from the spec: the standard HTTP verbs handled by the dispatcher
(GET, POST, PUT, DELETE, PATCH, OPTIONS). -/
inductive Verb where
  | GET
  | POST
  | PUT
  | DELETE
  | PATCH
  | OPTIONS
deriving DecidableEq

/-- Modelled from the spec: converter kinds for typed path parameters
(string, decimal integer, floating point). -/
inductive ConvKind where
  | str
  | int
  | float
deriving DecidableEq

/-- Modelled from the spec: a typed parameter value produced by a converter.
A floating-point value is modelled exactly as a decimal: a mantissa together
with the number of digits after the decimal point. -/
inductive Value where
  | str (s : String)
  | intv (n : Int)
  | floatv (mantissa : Int) (exp : Nat)
deriving DecidableEq

/-- The opening-brace character of the pattern syntax. -/
def lbrace : Char := Char.ofNat 123

/-- The closing-brace character of the pattern syntax. -/
def rbrace : Char := Char.ofNat 125

/-- Split a character list on a separator character; adjacent separators and
separators at either end produce empty groups (the behavior of splitting a
path string on the slash character). -/
def splitChars (c : Char) : List Char → List (List Char)
  | [] => [[]]
  | x :: xs =>
    let r := splitChars c xs
    if x = c then [] :: r
    else
      match r with
      | [] => [[x]]
      | y :: ys => (x :: y) :: ys

/-- Split a path (or pattern) string into its slash-separated segments. -/
def splitPath (s : String) : List String :=
  (splitChars '/' s.data).map (fun l => String.mk l)

/-- Accumulate decimal digits into a natural number; any non-digit character
makes the parse fail. -/
def digitsToNatAux (acc : Nat) : List Char → Option Nat
  | [] => some acc
  | c :: cs => if c.isDigit then digitsToNatAux (acc * 10 + (c.toNat - 48)) cs else none

/-- Parse a non-empty all-digit character list as a natural number. -/
def parseNatSeg : List Char → Option Nat
  | [] => none
  | cs => digitsToNatAux 0 cs

/-- Parse an optionally-signed decimal integer. -/
def parseIntSeg : List Char → Option Int
  | '-' :: rest => (parseNatSeg rest).map (fun n => -(n : Int))
  | cs => (parseNatSeg cs).map (fun n => (n : Int))

/-- Modelled from the spec: the converter of each kind parses a raw path
segment into a typed value; a segment that does not parse yields no value
(a non-convertible segment counts as a non-match, the policy the spec
recommends). -/
def convert : ConvKind → String → Option Value
  | .str, s => some (.str s)
  | .int, s => (parseIntSeg s.data).map .intv
  | .float, s =>
    match splitChars '.' s.data with
    | [a] => (parseIntSeg a).map (fun n => .floatv n 0)
    | [a, b] =>
      match parseIntSeg a, parseNatSeg b with
      | some ai, some bn =>
        some (.floatv (ai * (10 : Int) ^ b.length +
          (if a.head? = some '-' then -(bn : Int) else (bn : Int))) b.length)
      | _, _ => none
    | _ => none

/-- Modelled from the spec: one segment of a compiled route pattern — either
a literal string matched verbatim or a named parameter with a converter
kind. -/
inductive Segment where
  | lit (s : String)
  | param (name : String) (kind : ConvKind)
deriving DecidableEq

/-- Modelled from the spec: one component of the structural key used for
duplicate detection — literal text is kept, parameter names are dropped,
parameter kinds are kept. -/
inductive SegKey where
  | lit (s : String)
  | param (kind : ConvKind)
deriving DecidableEq

/-- The structural key of a single segment. -/
def segKey : Segment → SegKey
  | .lit s => .lit s
  | .param _ k => .param k

/-- Modelled from the spec: the structural key of a compiled pattern
(segment count plus per-segment kind, literal text included, parameter
names excluded). -/
def structuralKey (p : List Segment) : List SegKey :=
  p.map segKey

/-- Modelled from the spec: registration-time errors — a malformed converter
name, or a structurally identical pattern already registered. -/
inductive RegErr where
  | patternSyntaxError
  | duplicateRouteError
deriving DecidableEq

/-- Resolve a converter-kind name appearing in a pattern; an unknown kind is
a syntax error. -/
def parseKind : String → Option ConvKind
  | "str" => some ConvKind.str
  | "int" => some ConvKind.int
  | "float" => some ConvKind.float
  | _ => none

/-- Parse the inside of a brace-delimited parameter segment: either a bare
name (a string parameter) or a name and a converter kind separated by a
colon. -/
def parseParam (inner : List Char) : Except RegErr Segment :=
  match splitChars ':' inner with
  | [name] => .ok (.param (String.mk name) .str)
  | [name, kind] =>
    match parseKind (String.mk kind) with
    | some k => .ok (.param (String.mk name) k)
    | none => .error .patternSyntaxError
  | _ => .error .patternSyntaxError

/-- Modelled from the spec: parse one pattern segment — a brace-delimited
segment is a named parameter, anything else is a literal matched
verbatim. -/
def parseSegment (s : String) : Except RegErr Segment :=
  match s.data with
  | [] => .ok (.lit s)
  | c :: rest =>
    if c = lbrace ∧ rest.getLast? = some rbrace then parseParam rest.dropLast
    else .ok (.lit s)

/-- Modelled from the spec: the Pattern Compiler — turn a route-pattern
string into the ordered list of compiled segments; fails only on a
malformed converter name. -/
def compile (pattern : String) : Except RegErr (List Segment) :=
  (splitPath pattern).mapM parseSegment

/-- Does one compiled segment match one raw path segment? -/
def segMatches : Segment → String → Bool
  | .lit s, t => decide (s = t)
  | .param _ k, t => (convert k t).isSome

/-- Does a compiled pattern match a list of raw path segments?  Matching is
exact full-path matching: the segment counts must agree. -/
def patMatches : List Segment → List String → Bool
  | [], [] => true
  | seg :: ps, t :: ts => segMatches seg t && patMatches ps ts
  | _, _ => false

/-- Modelled from the spec: the compiled pattern's predicate
`matches(path)` (named `matchesPath` because `matches` is reserved). -/
def matchesPath (p : List Segment) (path : String) : Bool :=
  patMatches p (splitPath path)

/-- An extracted parameter map: parameter names paired with typed values. -/
abbrev Params := List (String × Value)

/-- Parameters extracted by one segment from one raw path segment. -/
def segExtract : Segment → String → Params
  | .lit _, _ => []
  | .param n k, t =>
    match convert k t with
    | some v => [(n, v)]
    | none => []

/-- Parameters extracted by a compiled pattern from a list of raw path
segments. -/
def patExtract : List Segment → List String → Params
  | seg :: ps, t :: ts => segExtract seg t ++ patExtract ps ts
  | _, _ => []

/-- Modelled from the spec: the compiled pattern's extractor
`extract(path)`, called only after `matches` succeeds. -/
def extract (p : List Segment) (path : String) : Params :=
  patExtract p (splitPath path)

/-- Modelled from the spec: the request side of the transport collaborator
interface — the core only reads the path and the method. -/
structure Request where
  path : String
  method : Verb
deriving DecidableEq

/-- Modelled from the spec: the response side of the transport collaborator
interface — the core writes the status code and the (text) body. -/
structure Response where
  status_code : Nat
  text : String
deriving DecidableEq

/-- The fresh response object handed to a handler at the start of a request
cycle. -/
def initResponse : Response :=
  { status_code := 200, text := "" }

/-- Modelled from the spec: the default not-found response — status 404,
body exactly "Not found.". -/
def notFoundResponse : Response :=
  { status_code := 404, text := "Not found." }

/-- An exception value raised by a handler, modelled by its description
string. -/
abbrev Exn := String

/-- A handler callable: it receives the request, the response object and the
extracted parameters, and either returns the mutated response or raises an
exception. -/
abbrev HandlerFn := Request → Response → Params → Except Exn Response

/-- Modelled from the spec: a Handler is either a FunctionHandler (a single
callable plus an explicit allowed-method set) or a ResourceHandler (one
callable per lowercase HTTP verb, held as a verb-to-callable mapping). -/
inductive Handler where
  | func (f : HandlerFn) (allowed_methods : List Verb)
  | resource (impls : List (Verb × HandlerFn))

/-- Modelled from the spec: the default allowed-method set for a
FunctionHandler — all standard HTTP verbs. -/
def standardVerbs : List Verb :=
  [.GET, .POST, .PUT, .DELETE, .PATCH, .OPTIONS]

/-- Look up the callable a resource exposes for a verb. -/
def implsLookup : List (Verb × HandlerFn) → Verb → Option HandlerFn
  | [], _ => none
  | (v, f) :: rest, w => if v = w then some f else implsLookup rest w

/-- Modelled from the spec: the resolved allowed-method set — for a
FunctionHandler the registered set, for a ResourceHandler exactly the verbs
for which a callable exists. -/
def allowedMethods : Handler → List Verb
  | .func _ ms => ms
  | .resource impls => impls.map (fun p => p.1)

/-- Modelled from the spec: resolve the concrete callable for a request
method — a FunctionHandler serves every verb with its single callable, a
ResourceHandler with the verb's own callable if it exists. -/
def resolveCallable : Handler → Verb → Option HandlerFn
  | .func f _, _ => some f
  | .resource impls, v => implsLookup impls v

/-- Modelled from the spec: a RouteEntry pairs a compiled pattern with its
handler. -/
structure RouteEntry where
  pattern : List Segment
  handler : Handler

/-- Does the registry already hold a pattern with the same structural
key? -/
def hasDuplicate (reg : List RouteEntry) (p : List Segment) : Bool :=
  reg.any (fun e => decide (structuralKey e.pattern = structuralKey p))

/-- Modelled from the spec: the Route Registry's `register` — compile the
pattern, fail with `duplicateRouteError` if a structurally identical
pattern is already registered (checked before insertion, all-or-nothing),
otherwise append the new entry. -/
def register (reg : List RouteEntry) (pattern : String) (h : Handler) :
    Except RegErr (List RouteEntry) :=
  match compile pattern with
  | .error e => .error e
  | .ok p =>
    if hasDuplicate reg p then .error .duplicateRouteError
    else .ok (reg ++ [⟨p, h⟩])

/-- Modelled from the spec: the registration surface `add_route` for
function handlers — when no allowed-method set is supplied the default is
all standard verbs. -/
def add_route (reg : List RouteEntry) (pattern : String) (f : HandlerFn)
    (allowed : Option (List Verb)) : Except RegErr (List RouteEntry) :=
  register reg pattern (.func f (allowed.getD standardVerbs))

/-- Modelled from the spec: the Route Registry's `lookup` — linear scan in
registration order, first match wins, returning the entry together with the
extracted parameters. -/
def lookup : List RouteEntry → String → Option (RouteEntry × Params)
  | [], _ => none
  | e :: rest, path =>
    if matchesPath e.pattern path then some (e, extract e.pattern path)
    else lookup rest path

/-- Modelled from the spec: the exception hook — a callable receiving the
request, the response and the exception, mutating the response to represent
the error. -/
abbrev ExnHook := Request → Response → Exn → Response

/-- Modelled from the spec: the failures `dispatch` can propagate — a
method-not-allowed resolution failure, or a handler exception left unhandled
because no exception hook is registered. -/
inductive DispatchErr where
  | methodNotAllowedError
  | handlerExn (e : Exn)
deriving DecidableEq

/-- Modelled from the spec: the application state the dispatcher consults —
the route registry and the single-slot exception hook (absent by
default). -/
structure App where
  registry : List RouteEntry
  exnHook : Option ExnHook

/-- Modelled from the spec: the Dispatcher.  Steps: (1) look the path up in
the registry, returning the default not-found response immediately when no
route matches; (2) resolve the allowed-method set; (3) fail with
`methodNotAllowedError` when the request's method is not allowed; (4) invoke
the resolved callable on the request, a fresh response and the extracted
parameters; (5) forward a handler exception to the exception hook when one
is registered, otherwise propagate it. -/
def dispatch (app : App) (req : Request) : Except DispatchErr Response :=
  match lookup app.registry req.path with
  | none => .ok notFoundResponse
  | some (entry, params) =>
    if req.method ∈ allowedMethods entry.handler then
      match resolveCallable entry.handler req.method with
      | none => .error .methodNotAllowedError
      | some f =>
        match f req initResponse params with
        | .ok resp => .ok resp
        | .error e =>
          match app.exnHook with
          | some hook => .ok (hook req initResponse e)
          | none => .error (.handlerExn e)
    else .error .methodNotAllowedError

/-- Modelled from the spec: a MiddlewareLink — a before-hook that observes
or modifies the request and an after-hook that observes or modifies the
response, each also threading an auxiliary state (used to observe invocation
order). -/
structure Middleware (σ : Type) where
  process_request : Request → σ → Request × σ
  process_response : Request → Response → σ → Response × σ

/-- Modelled from the spec: the Middleware Pipeline's `wrap` — run all
before-hooks in registration order, then the inner dispatcher call, then all
after-hooks in reverse registration order; a failure of the inner call
propagates and skips the after-hooks. -/
def wrap {σ : Type} :
    List (Middleware σ) → (Request → σ → Except DispatchErr (Response × σ)) →
    Request → σ → Except DispatchErr (Response × σ)
  | [], inner, req, s => inner req s
  | m :: rest, inner, req, s =>
    let rs := m.process_request req s
    match wrap rest inner rs.1 rs.2 with
    | .error e => .error e
    | .ok (resp, s2) =>
      let rs2 := m.process_response rs.1 resp s2
      .ok rs2

/-- Modelled from the spec: a full request cycle — the middleware pipeline
wrapped around the dispatcher call. -/
def handleRequest {σ : Type} (app : App) (mws : List (Middleware σ))
    (req : Request) (s : σ) : Except DispatchErr (Response × σ) :=
  wrap mws
    (fun r st =>
      match dispatch app r with
      | .ok resp => .ok (resp, st)
      | .error e => .error e)
    req s

/-- A middleware whose hooks log their invocation, tagged with a name
(translated from `test_framework.py`'s CallMiddlewareMethods, refined to
record order). -/
def mkLogMw (n : String) : Middleware (List String) :=
  { process_request := fun req s => (req, s ++ [n ++ ".before"]),
    process_response := fun _ resp s => (resp, s ++ [n ++ ".after"]) }

/-- Look a relative path up in the static directory, modelled as a finite
map from relative paths to file contents. -/
def staticLookup : List (String × String) → String → Option String
  | [], _ => none
  | (p, c) :: rest, q => if p = q then some c else staticLookup rest q

/-- Rejoin path segments with slashes. -/
def joinSlash : List String → String
  | [] => ""
  | [x] => x
  | x :: xs => x ++ "/" ++ joinSlash xs

/-- Modelled from the spec: static-asset serving (the collaborator wired in
when the application is constructed with a static directory; its source is
not part of the repository).  A GET request under the `/static/` prefix is
answered from the static directory: the file's exact contents with status
200 when the file exists, the default 404 response when it does not; any
other request goes to the ordinary dispatcher. -/
def serveWithStatic (files : List (String × String)) (app : App)
    (req : Request) : Except DispatchErr Response :=
  match splitPath req.path with
  | "" :: "static" :: rest =>
    if req.method = Verb.GET then
      match staticLookup files (joinSlash rest) with
      | some contents => .ok { status_code := 200, text := contents }
      | none => .ok notFoundResponse
    else dispatch app req
  | _ => dispatch app req

/-- Look a parameter up by name in the extracted parameter map (the model of
passing extracted parameters as keyword arguments). -/
def paramLookup : Params → String → Option Value
  | [], _ => none
  | (n, v) :: rest, m => if n = m then some v else paramLookup rest m

/-- Translated from `app.py`'s `greeting` handler for `/hello/{name}`: sets
the response text to `Hello, <name>!!`; a missing or non-string parameter is
the keyword-argument failure, modelled as an exception. -/
def greeting : HandlerFn := fun _ resp params =>
  match paramLookup params "name" with
  | some (.str n) => .ok { resp with text := "Hello, " ++ n ++ "!!" }
  | _ => .error "TypeError"

/-- Translated from `app.py`'s `sum` handler (spec-form pattern
`/sum/{a:int}/{b:int}`): sets the response text to `<a> + <b> = <a+b>`. -/
def sumHandler : HandlerFn := fun _ resp params =>
  match paramLookup params "a", paramLookup params "b" with
  | some (.intv x), some (.intv y) =>
    .ok { resp with text := toString x ++ " + " ++ toString y ++ " = " ++ toString (x + y) }
  | _, _ => .error "TypeError"

/-- Translated from `test_framework.py`: a handler that writes a fixed
text. -/
def constHandler (t : String) : HandlerFn := fun _ resp _ =>
  .ok { resp with text := t }

/-- A handler that raises the given exception (as `app.py`'s
`exception_throwing_handler` and `test_framework.py`'s raising `index`
do). -/
def raiseHandler (e : Exn) : HandlerFn := fun _ _ _ =>
  .error e

/-- Translated from `app.py`'s `custom_exception_handler`: sets the response
text to the string form of the exception. -/
def custom_exception_handler : ExnHook := fun _ resp e =>
  { resp with text := e }

/-- The compiled form of `/hello/{name}`. -/
def helloPattern : List Segment :=
  [.lit "", .lit "hello", .param "name" .str]

/-- The compiled form of the spec-form pattern `/sum/{a:int}/{b:int}`. -/
def sumPattern : List Segment :=
  [.lit "", .lit "sum", .param "a" .int, .param "b" .int]

/-- The compiled form of `/book`. -/
def bookPattern : List Segment :=
  [.lit "", .lit "book"]

/-- The compiled form of `/home`. -/
def homePattern : List Segment :=
  [.lit "", .lit "home"]

/-- The compiled form of `/`. -/
def rootPattern : List Segment :=
  [.lit "", .lit ""]

/-- Translated from `test_framework.py`'s post-only `BookResource`: a
resource exposing a callable for POST only. -/
def bookResourceImpls : List (Verb × HandlerFn) :=
  [(Verb.POST, constHandler "POST request")]

/-- The application of `test_framework.py`'s parameterized-route and hello
tests: the `/hello/{name}` route with the `greeting` handler, no exception
hook. -/
def helloApp : App :=
  { registry := [⟨helloPattern, .func greeting standardVerbs⟩], exnHook := none }

/-- The application with the spec-form `/sum/{a:int}/{b:int}` route. -/
def sumApp : App :=
  { registry := [⟨sumPattern, .func sumHandler standardVerbs⟩], exnHook := none }

/-- The application of `test_framework.py`'s class-based-handler tests: the
post-only book resource at `/book`. -/
def bookApp : App :=
  { registry := [⟨bookPattern, .resource bookResourceImpls⟩], exnHook := none }

/-- The application of `test_framework.py`'s allowed-method default test:
`/home` registered without an explicit allowed-method set. -/
def homeApp : App :=
  { registry := [⟨homePattern, .func (constHandler "Hello") standardVerbs⟩],
    exnHook := none }

/-- The application of `test_framework.py`'s middleware test: a single `/`
route writing "Yolo". -/
def yoloApp : App :=
  { registry := [⟨rootPattern, .func (constHandler "Yolo") standardVerbs⟩],
    exnHook := none }

/-- A registry holding one `/exception` route whose handler raises the given
exception. -/
def exnRegistry (e : Exn) : List RouteEntry :=
  [⟨[.lit "", .lit "exception"], .func (raiseHandler e) standardVerbs⟩]

/-- C1: a request whose path matches no registered route produces the
default not-found response — status 404, body exactly "Not found." — and the
result is the same whatever the exception hook is, i.e. the hook is never
involved on this path. -/
theorem dispatch_unmatched_gives_404 (reg : List RouteEntry) (hook : Option ExnHook)
    (req : Request) (h : lookup reg req.path = none) :
    dispatch { registry := reg, exnHook := hook } req = .ok notFoundResponse ∧
    notFoundResponse.status_code = 404 ∧ notFoundResponse.text = "Not found." := by
  refine ⟨?_, rfl, rfl⟩
  simp [dispatch, h]

/-- Witness for C1: the unregistered path of `test_default_404_response`. -/
theorem dispatch_unmatched_gives_404_witness :
    dispatch { registry := [], exnHook := some custom_exception_handler }
        { path := "/doesnotexist", method := Verb.GET } = .ok notFoundResponse ∧
    notFoundResponse.status_code = 404 ∧ notFoundResponse.text = "Not found." :=
  dispatch_unmatched_gives_404 [] (some custom_exception_handler)
    ⟨"/doesnotexist", Verb.GET⟩ rfl

/-- C2: for any two pattern strings whose compiled forms have the same
structural key, registering the first succeeds (in a registry free of
conflicts) and then registering the second fails with the duplicate-route
error while producing no new registry (all-or-nothing); registering either
pattern alone succeeds. -/
theorem register_duplicate_structural (p1 p2 : String) (c1 c2 : List Segment)
    (h1 h2 : Handler) (reg : List RouteEntry)
    (hc1 : compile p1 = .ok c1) (hc2 : compile p2 = .ok c2)
    (hkey : structuralKey c1 = structuralKey c2)
    (hfree : hasDuplicate reg c1 = false) :
    register reg p1 h1 = .ok (reg ++ [⟨c1, h1⟩]) ∧
    register (reg ++ [⟨c1, h1⟩]) p2 h2 = .error .duplicateRouteError ∧
    register reg p2 h2 = .ok (reg ++ [⟨c2, h2⟩]) := by
  have hfree2 : hasDuplicate reg c2 = false := by
    unfold hasDuplicate at hfree ⊢
    rw [← hkey]
    exact hfree
  refine ⟨?_, ?_, ?_⟩
  · simp [register, hc1, hfree]
  · simp [register, hc2, hasDuplicate, List.any_append, hkey]
  · simp [register, hc2, hfree2]

/-- Witness for C2: `/hello/{name}` then `/hello/{other}` — identical
structure, different parameter names — collide on an empty registry. -/
theorem register_duplicate_structural_witness :
    register [] "/hello/\x7bname\x7d" (.func greeting standardVerbs) =
      .ok ([] ++ [⟨helloPattern, .func greeting standardVerbs⟩]) ∧
    register ([] ++ [⟨helloPattern, .func greeting standardVerbs⟩])
        "/hello/\x7bother\x7d" (.func greeting standardVerbs) =
      .error .duplicateRouteError ∧
    register [] "/hello/\x7bother\x7d" (.func greeting standardVerbs) =
      .ok ([] ++ [⟨[.lit "", .lit "hello", .param "other" .str], .func greeting standardVerbs⟩]) :=
  register_duplicate_structural "/hello/\x7bname\x7d" "/hello/\x7bother\x7d"
    helloPattern [.lit "", .lit "hello", .param "other" .str]
    (.func greeting standardVerbs) (.func greeting standardVerbs) []
    rfl rfl rfl rfl

/-- C3: when the resolved handler raises, a registered exception hook
receives the exception and its mutation of the response is what dispatch
returns (normally); with no hook registered the same exception propagates
out of dispatch. -/
theorem handler_exception_hook (reg : List RouteEntry) (req : Request)
    (entry : RouteEntry) (params : Params) (f : HandlerFn) (e : Exn) (hook : ExnHook)
    (hl : lookup reg req.path = some (entry, params))
    (hm : req.method ∈ allowedMethods entry.handler)
    (hr : resolveCallable entry.handler req.method = some f)
    (hf : f req initResponse params = .error e) :
    dispatch { registry := reg, exnHook := some hook } req = .ok (hook req initResponse e) ∧
    dispatch { registry := reg, exnHook := none } req = .error (.handlerExn e) := by
  constructor <;> simp [dispatch, hl, hm, hr, hf]

/-- Witness for C3: the raising `/exception` route with `app.py`'s
`custom_exception_handler`. -/
theorem handler_exception_hook_witness :
    dispatch { registry := exnRegistry "AssertionError", exnHook := some custom_exception_handler }
        { path := "/exception", method := Verb.GET } =
      .ok (custom_exception_handler ⟨"/exception", Verb.GET⟩ initResponse "AssertionError") ∧
    dispatch { registry := exnRegistry "AssertionError", exnHook := none }
        { path := "/exception", method := Verb.GET } =
      .error (.handlerExn "AssertionError") :=
  handler_exception_hook (exnRegistry "AssertionError") ⟨"/exception", Verb.GET⟩
    ⟨[.lit "", .lit "exception"], .func (raiseHandler "AssertionError") standardVerbs⟩
    [] (raiseHandler "AssertionError") "AssertionError" custom_exception_handler
    rfl (by decide) rfl rfl

/-- C4: a request that matches a route but whose method is not in the
resolved allowed-method set makes dispatch fail with the method-not-allowed
error; it is not turned into a response, and the result is the same whatever
the exception hook is — the hook does not intercept it. -/
theorem method_not_allowed_propagates (reg : List RouteEntry) (hook : Option ExnHook)
    (req : Request) (entry : RouteEntry) (params : Params)
    (hl : lookup reg req.path = some (entry, params))
    (hm : req.method ∉ allowedMethods entry.handler) :
    dispatch { registry := reg, exnHook := hook } req = .error .methodNotAllowedError := by
  simp [dispatch, hl, hm]

/-- Witness for C4: a GET against the post-only book resource, with an
exception hook registered. -/
theorem method_not_allowed_propagates_witness :
    dispatch { registry := bookApp.registry, exnHook := some custom_exception_handler }
        { path := "/book", method := Verb.GET } = .error .methodNotAllowedError :=
  method_not_allowed_propagates bookApp.registry (some custom_exception_handler)
    ⟨"/book", Verb.GET⟩ ⟨bookPattern, .resource bookResourceImpls⟩ []
    rfl (by decide)

/-- C5: the pattern `/hello/{name}` matches `/hello/fred` binding `name` to
"fred" and `/hello/boss` binding it to "boss", does not match `/hello`, and
the matched handler is invoked with the request, the response and the
extracted parameters — observed through `greeting`'s response text. -/
theorem hello_route_behavior :
    compile "/hello/\x7bname\x7d" = .ok helloPattern ∧
    matchesPath helloPattern "/hello/fred" = true ∧
    extract helloPattern "/hello/fred" = [("name", Value.str "fred")] ∧
    matchesPath helloPattern "/hello/boss" = true ∧
    extract helloPattern "/hello/boss" = [("name", Value.str "boss")] ∧
    matchesPath helloPattern "/hello" = false ∧
    dispatch helloApp ⟨"/hello/fred", .GET⟩ =
      .ok { status_code := 200, text := "Hello, fred!!" } ∧
    dispatch helloApp ⟨"/hello/boss", .GET⟩ =
      .ok { status_code := 200, text := "Hello, boss!!" } :=
  ⟨rfl, rfl, rfl, rfl, rfl, rfl, rfl, rfl⟩

/-- C6: the spec-form pattern `/sum/{a:int}/{b:int}` compiles to two
integer-converter parameter segments, `/sum/3/4` matches it and extracts the
typed integer values 3 and 4, and those values are what the handler
receives — observed through `sumHandler`'s response text. -/
theorem sum_route_behavior :
    compile "/sum/\x7ba:int\x7d/\x7bb:int\x7d" = .ok sumPattern ∧
    matchesPath sumPattern "/sum/3/4" = true ∧
    extract sumPattern "/sum/3/4" = [("a", Value.intv 3), ("b", Value.intv 4)] ∧
    dispatch sumApp ⟨"/sum/3/4", .GET⟩ =
      .ok { status_code := 200, text := "3 + 4 = 7" } :=
  ⟨rfl, rfl, rfl, rfl⟩

/-- C7: a ResourceHandler's allowed-method set is exactly the verbs for
which it exposes a callable; for the post-only book resource a POST request
succeeds with the callable's response mutation visible to the caller, while
a GET to the same route fails with the method-not-allowed error. -/
theorem resource_handler_methods :
    (∀ impls : List (Verb × HandlerFn),
      allowedMethods (.resource impls) = impls.map (fun p => p.1)) ∧
    allowedMethods (Handler.resource bookResourceImpls) = [Verb.POST] ∧
    dispatch bookApp ⟨"/book", .POST⟩ =
      .ok { status_code := 200, text := "POST request" } ∧
    dispatch bookApp ⟨"/book", .GET⟩ = .error .methodNotAllowedError :=
  ⟨fun _ => rfl, rfl, rfl, rfl⟩

/-- C8: registering a function handler without an explicit allowed-method
set defaults to all standard verbs, and the resulting route accepts GET,
POST, PUT, DELETE, PATCH and OPTIONS identically. -/
theorem function_handler_default_methods :
    standardVerbs = [Verb.GET, .POST, .PUT, .DELETE, .PATCH, .OPTIONS] ∧
    add_route [] "/home" (constHandler "Hello") none = .ok homeApp.registry ∧
    ∀ v : Verb, dispatch homeApp ⟨"/home", v⟩ =
      .ok { status_code := 200, text := "Hello" } := by
  refine ⟨rfl, rfl, ?_⟩
  intro v
  cases v <;> rfl

/-- C9: with middleware registered in order [A, B], a successful request
cycle runs A's before-hook, then B's before-hook, then the dispatcher call,
then B's after-hook, then A's after-hook — both hooks of each middleware are
invoked, before-hooks in registration order and after-hooks in reverse. -/
theorem middleware_hook_order (a b : String) (app : App) (req : Request)
    (resp : Response) (h : dispatch app req = .ok resp) :
    handleRequest app [mkLogMw a, mkLogMw b] req [] =
      .ok (resp, [a ++ ".before", b ++ ".before", b ++ ".after", a ++ ".after"]) := by
  simp [handleRequest, wrap, mkLogMw, h]

/-- Witness for C9: two logging middleware around the `/` route of the
middleware test. -/
theorem middleware_hook_order_witness :
    handleRequest yoloApp [mkLogMw "A", mkLogMw "B"] ⟨"/", Verb.GET⟩ [] =
      .ok ({ status_code := 200, text := "Yolo" },
        ["A" ++ ".before", "B" ++ ".before", "B" ++ ".after", "A" ++ ".after"]) :=
  middleware_hook_order "A" "B" yoloApp ⟨"/", Verb.GET⟩
    { status_code := 200, text := "Yolo" } rfl

/-- C10: with a static directory configured, a GET to `/static/<relative
path>` answers an existing file with status 200 and the file's exact
contents as the body, and a missing file with the 404 response. -/
theorem static_serving_behavior :
    (∀ (contents : String) (app : App),
      serveWithStatic [("css/main.css", contents)] app
          ⟨"/static/css/main.css", Verb.GET⟩ =
        .ok { status_code := 200, text := contents }) ∧
    (∀ app : App,
      serveWithStatic [("css/main.css", "body \x7bbackground-color: red\x7d")] app
          ⟨"/static/css/missing.css", Verb.GET⟩ = .ok notFoundResponse) ∧
    notFoundResponse.status_code = 404 :=
  ⟨fun _ _ => rfl, fun _ => rfl, rfl⟩

end SimpleWeb
